import Mathlib

/-!
Shallow embedding of the astro-snowfall particle engine
(src/lib/snowfall: utils.ts, types.ts, Snowflake.ts, SnowfallCanvas.ts).

Numbers are modelled by `ℚ`.  JavaScript's `Math.random()` calls are made
explicit: every sampling site receives a unit sample `u ∈ [0,1)` as an
argument.  JavaScript's remainder operator `%` truncates toward zero and
keeps the dividend's sign; it is embedded as `jsMod`.
-/

namespace Snowfall

/-- Truncation toward zero on the rationals, as used by the JavaScript
remainder operator. -/
def jsTrunc (q : ℚ) : ℤ :=
if q < 0 then ⌈q⌉ else ⌊q⌋

/-- JavaScript's remainder operator `a % b` on finite numbers: the result
has the sign of the dividend `a`. -/
def jsMod (a b : ℚ) : ℚ :=
a - b * (jsTrunc (a / b) : ℚ)

/-- utils.ts `random(min, max)`: `Math.random() * (max - min) + min`, with
the `Math.random()` result passed explicitly as `u`. -/
def random (mn mx u : ℚ) : ℚ :=
u * (mx - mn) + mn

/-- utils.ts `lerp(start, end, t)`: `start * (1 - t) + end * t`. -/
def lerp (a b t : ℚ) : ℚ :=
a * (1 - t) + b * t

/-- utils.ts `randomElement(array)`: `array[Math.floor(Math.random() * array.length)]`.
Out-of-range indexing yields `undefined`, embedded as `none`.  Images are
opaque handles modelled by `ℕ`. -/
def randomElement (l : List ℕ) (u : ℚ) : Option ℕ :=
l.get? (⌊u * (l.length : ℚ)⌋).toNat

/-- types.ts `SnowflakeProps` after defaulting: the per-particle
configuration (the `color` string is kept verbatim; images are opaque
handles). -/
structure SnowflakeProps where
  color : String
  radius : ℚ × ℚ
  speed : ℚ × ℚ
  wind : ℚ × ℚ
  changeFrequency : ℚ
  rotationSpeed : ℚ × ℚ
  opacity : ℚ × ℚ
  enable3DRotation : Bool
  images : Option (List ℕ)
  enableAccumulation : Bool
  accumulationMaxHeight : ℚ
  accumulationRate : ℚ
  deriving DecidableEq

/-- types.ts `SnowflakeParams`: the mutable per-particle state. -/
structure SnowflakeParams where
  x : ℚ
  y : ℚ
  radius : ℚ
  speed : ℚ
  wind : ℚ
  nextSpeed : ℚ
  nextWind : ℚ
  rotation : ℚ
  rotationSpeed : ℚ
  opacity : ℚ
  rotationX : ℚ
  rotationY : ℚ
  rotationZ : ℚ
  framesSinceLastUpdate : ℚ
  image : Option ℕ
  isAccumulated : Bool
  deriving DecidableEq

/-- Unit samples consumed by the Snowflake constructor, one per
`Math.random()` call site, in source order. -/
structure CtorSamples where
  ux : ℚ
  uy : ℚ
  uradius : ℚ
  uspeed : ℚ
  uwind : ℚ
  unextSpeed : ℚ
  unextWind : ℚ
  urotation : ℚ
  urotationSpeed : ℚ
  uopacity : ℚ
  urotX : ℚ
  urotY : ℚ
  urotZ : ℚ
  uimage : ℚ
  deriving DecidableEq

/-- A sample in the half-open unit interval, the range of `Math.random()`. -/
def unitSample (u : ℚ) : Prop :=
0 ≤ u ∧ u < 1

instance (u : ℚ) : Decidable (unitSample u) := by
unfold unitSample
infer_instance

/-- All constructor samples lie in `[0, 1)`. -/
def CtorSamples.valid (s : CtorSamples) : Prop :=
unitSample s.ux ∧ unitSample s.uy ∧ unitSample s.uradius ∧
unitSample s.uspeed ∧ unitSample s.uwind ∧ unitSample s.unextSpeed ∧
unitSample s.unextWind ∧ unitSample s.urotation ∧
unitSample s.urotationSpeed ∧ unitSample s.uopacity ∧
unitSample s.urotX ∧ unitSample s.urotY ∧ unitSample s.urotZ ∧
unitSample s.uimage

instance (s : CtorSamples) : Decidable s.valid := by
unfold CtorSamples.valid
infer_instance

/-- Snowflake.ts constructor: initializes the particle state from the
configuration, the canvas size, and the explicit random samples.
Note that in JavaScript an empty array is truthy, so
`config.images ? randomElement(config.images) : undefined` calls
`randomElement` whenever an image pool is present, even an empty one. -/
def mkSnowflake (config : SnowflakeProps) (canvasWidth canvasHeight : ℚ)
    (s : CtorSamples) : SnowflakeParams :=
{ x := random 0 canvasWidth s.ux
  y := random (-canvasHeight) 0 s.uy
  radius := random config.radius.1 config.radius.2 s.uradius
  speed := random config.speed.1 config.speed.2 s.uspeed
  wind := random config.wind.1 config.wind.2 s.uwind
  nextSpeed := random config.speed.1 config.speed.2 s.unextSpeed
  nextWind := random config.wind.1 config.wind.2 s.unextWind
  rotation := random 0 360 s.urotation
  rotationSpeed := random config.rotationSpeed.1 config.rotationSpeed.2 s.urotationSpeed
  opacity := random config.opacity.1 config.opacity.2 s.uopacity
  rotationX := random 0 360 s.urotX
  rotationY := random 0 360 s.urotY
  rotationZ := random 0 360 s.urotZ
  framesSinceLastUpdate := 0
  image := match config.images with
    | some imgs => randomElement imgs s.uimage
    | none => none
  isAccumulated := false }

/-- Inputs to one `Snowflake.update` call: canvas size, elapsed frame
units, current accumulation height, and the two unit samples consumed if
the target speed/wind are re-rolled this call. -/
structure UpdateInput where
  width : ℚ
  height : ℚ
  frames : ℚ
  ground : ℚ
  uSpeed : ℚ
  uWind : ℚ
  deriving DecidableEq

/-- Snowflake.ts `update(canvasWidth, canvasHeight, framesPassed,
accumulationHeight)`: advances rotation (wrapped with JavaScript `%`),
lerps speed and wind toward their targets, integrates position, re-rolls
targets when the frame accumulator reaches `changeFrequency`, wraps at
the edges, and returns the advisory accumulation signal. -/
def update (config : SnowflakeProps) (p : SnowflakeParams)
    (inp : UpdateInput) : SnowflakeParams × Bool :=
  let rotation1 := jsMod (p.rotation + p.rotationSpeed * inp.frames) 360
  let rotX1 := if config.enable3DRotation then
      jsMod (p.rotationX + p.rotationSpeed * inp.frames * (1/2)) 360
    else p.rotationX
  let rotY1 := if config.enable3DRotation then
      jsMod (p.rotationY + p.rotationSpeed * inp.frames * (3/10)) 360
    else p.rotationY
  let rotZ1 := if config.enable3DRotation then
      jsMod (p.rotationZ + p.rotationSpeed * inp.frames) 360
    else p.rotationZ
  let lerpAmount := inp.frames / config.changeFrequency
  let speed1 := lerp p.speed p.nextSpeed lerpAmount
  let wind1 := lerp p.wind p.nextWind lerpAmount
  let y1 := p.y + speed1 * inp.frames
  let x1 := p.x + wind1 * inp.frames
  let frames1 := p.framesSinceLastUpdate + inp.frames
  let reroll := frames1 ≥ config.changeFrequency
  let nextSpeed1 := if reroll then random config.speed.1 config.speed.2 inp.uSpeed
    else p.nextSpeed
  let nextWind1 := if reroll then random config.wind.1 config.wind.2 inp.uWind
    else p.nextWind
  let frames2 := if reroll then 0 else frames1
  let y2 := if y1 > inp.height then -p.radius else y1
  let x2 := if x1 > inp.width + p.radius then -p.radius
    else if x1 < -p.radius then inp.width + p.radius
    else x1
  let shouldAccumulate :=
    config.enableAccumulation && decide (y2 + p.radius ≥ inp.height - inp.ground)
  ({ p with
      x := x2
      y := y2
      speed := speed1
      wind := wind1
      nextSpeed := nextSpeed1
      nextWind := nextWind1
      rotation := rotation1
      rotationX := rotX1
      rotationY := rotY1
      rotationZ := rotZ1
      framesSinceLastUpdate := frames2 },
   shouldAccumulate)

/-- A sequence of `update` calls, applied left to right, discarding the
advisory accumulation signals. -/
def runUpdates (config : SnowflakeProps) (p : SnowflakeParams)
    (ins : List UpdateInput) : SnowflakeParams :=
ins.foldl (fun q i => (update config q i).1) p

/-- Modelled from the spec: `Snowflake.containsPoint` is not present under
src (only its caller, `SnowfallCanvas.handleClick`, is).  Per the spec it
returns true iff the Euclidean distance from the given point to the
particle's center is at most its radius; embedded executably through the
squared-distance comparison. -/
def containsPoint (p : SnowflakeParams) (px py : ℚ) : Bool :=
decide ((px - p.x) ^ 2 + (py - p.y) ^ 2 ≤ p.radius ^ 2)

/-- The reverse scan of `SnowfallCanvas.handleClick` (part_001 lines
82-87): walk the collection from the last index toward the first and
splice out the first hit.  `some l` means one particle was removed,
`none` means no hit. -/
def clickRemove (px py : ℚ) : List SnowflakeParams → Option (List SnowflakeParams)
  | [] => none
  | f :: rest =>
    match clickRemove px py rest with
    | some rest1 => some (f :: rest1)
    | none => if containsPoint f px py then some rest else none

/-- part_001 `SnowfallCanvas.handleClick(event)`: converts the click's
client coordinates to canvas coordinates (compensating for CSS scaling,
with `offsetWidth || 1` guarding division by zero), then removes the
topmost hit particle, if any. -/
def handleClick (flakes : List SnowflakeParams)
    (clientX clientY rectLeft rectTop canvasW canvasH offsetW offsetH : ℚ) :
    List SnowflakeParams :=
  let offsetW1 := if offsetW = 0 then 1 else offsetW
  let offsetH1 := if offsetH = 0 then 1 else offsetH
  let scaleX := canvasW / offsetW1
  let scaleY := canvasH / offsetH1
  let x := (clientX - rectLeft) * scaleX
  let y := (clientY - rectTop) * scaleY
  (clickRemove x y flakes).getD flakes

/-- The three mutually exclusive rendering modes of `Snowflake.draw`. -/
inductive DrawMode where
  | imageMode : DrawMode
  | circle3D : DrawMode
  | circle : DrawMode
  deriving DecidableEq

/-- Snowflake.ts `draw(ctx)` mode selection: image when one is assigned,
otherwise the 3D circle when enabled, otherwise the plain circle. -/
def drawMode (config : SnowflakeProps) (p : SnowflakeParams) : DrawMode :=
if p.image.isSome then DrawMode.imageMode
else if config.enable3DRotation then DrawMode.circle3D
else DrawMode.circle

/-- The controller's ground-accumulation bookkeeping
(SnowfallCanvas.ts field `accumulationHeight`). -/
structure AccumState where
  accumulationHeight : ℚ
  deriving DecidableEq

/-- SnowfallCanvas.ts `update` lines 110-113: on an accumulation event the
ground height grows by the configured rate only while it is strictly
below the maximum. -/
def accumEvent (rate maxH : ℚ) (s : AccumState) : AccumState :=
if s.accumulationHeight < maxH then ⟨s.accumulationHeight + rate⟩ else s

/-- SnowfallCanvas.ts `updateConfig` line 235: reconfiguration resets the
accumulated height to zero. -/
def updateConfigAccum (_s : AccumState) : AccumState :=
⟨0⟩

/-- The host scheduler as seen by the controller: a fresh-handle counter,
the pending callback handles, and a count of cancel calls. -/
structure Sched where
  nextHandle : ℕ
  pending : List ℕ
  cancelCount : ℕ
  deriving DecidableEq

/-- `requestAnimationFrame`: issues a fresh handle and queues it. -/
def requestFrame (s : Sched) : ℕ × Sched :=
(s.nextHandle, ⟨s.nextHandle + 1, s.pending ++ [s.nextHandle], s.cancelCount⟩)

/-- `cancelAnimationFrame(h)`: removes the handle from the pending queue. -/
def cancelFrame (h : ℕ) (s : Sched) : Sched :=
⟨s.nextHandle, s.pending.erase h, s.cancelCount + 1⟩

/-- The scheduling-relevant slice of the controller state
(SnowfallCanvas.ts fields `isPaused`, `animationFrame`, `lastUpdate`);
`ticksRun` counts the synchronous update/render bodies executed. -/
structure CanvasCtrl where
  isPaused : Bool
  animationFrame : Option ℕ
  lastUpdate : ℤ
  ticksRun : ℕ
  deriving DecidableEq

/-- SnowfallCanvas.ts `loop`: returns immediately when paused; otherwise
runs update (which stamps `lastUpdate := now`) and render, then schedules
the next tick and records its handle. -/
def loopStep (now : ℤ) (c : CanvasCtrl) (s : Sched) : CanvasCtrl × Sched :=
if c.isPaused then (c, s)
else
  let hs := requestFrame s
  ({ c with
      ticksRun := c.ticksRun + 1
      lastUpdate := now
      animationFrame := some hs.1 }, hs.2)

/-- SnowfallCanvas.ts `play()`: a no-op when already playing (not paused
and a frame is scheduled); otherwise clears the pause flag, resets the
elapsed-time baseline to now, and runs the loop. -/
def play (now : ℤ) (c : CanvasCtrl) (s : Sched) : CanvasCtrl × Sched :=
let isAlreadyPlaying := !c.isPaused && c.animationFrame.isSome
if isAlreadyPlaying then (c, s)
else loopStep now { c with isPaused := false, lastUpdate := now } s

/-- SnowfallCanvas.ts `pause()`: sets the pause flag and cancels the
pending scheduled tick, if any. -/
def pause (c : CanvasCtrl) (s : Sched) : CanvasCtrl × Sched :=
let c1 := { c with isPaused := true }
match c.animationFrame with
| some h => ({ c1 with animationFrame := none }, cancelFrame h s)
| none => (c1, s)

/-- All four rotation angles of a particle lie strictly between -360 and
360 degrees. -/
def anglesOK (p : SnowflakeParams) : Prop :=
-360 < p.rotation ∧ p.rotation < 360 ∧
-360 < p.rotationX ∧ p.rotationX < 360 ∧
-360 < p.rotationY ∧ p.rotationY < 360 ∧
-360 < p.rotationZ ∧ p.rotationZ < 360

instance (p : SnowflakeParams) : Decidable (anglesOK p) := by
unfold anglesOK
infer_instance

/-- Fixture: the default particle configuration from config.ts. -/
def testConfig : SnowflakeProps :=
{ color := "#dee4fd"
  radius := (1/2, 3)
  speed := (1, 3)
  wind := (-1/2, 2)
  changeFrequency := 200
  rotationSpeed := (-1, 1)
  opacity := (1, 1)
  enable3DRotation := false
  images := none
  enableAccumulation := false
  accumulationMaxHeight := 3/10
  accumulationRate := 1/100 }

/-- Fixture: a particle at the origin with all motion parameters zeroed. -/
def baseFlake : SnowflakeParams :=
{ x := 0
  y := 0
  radius := 1
  speed := 0
  wind := 0
  nextSpeed := 0
  nextWind := 0
  rotation := 0
  rotationSpeed := 0
  opacity := 1
  rotationX := 0
  rotationY := 0
  rotationZ := 0
  framesSinceLastUpdate := 0
  image := none
  isAccumulated := false }

/-- Fixture: a particle centered at (10, 10) with radius 5. -/
def hitFlake : SnowflakeParams :=
{ baseFlake with x := 10, y := 10, radius := 5 }

/-- Fixture: every constructor sample equal to one half. -/
def halfSamples : CtorSamples :=
⟨1/2, 1/2, 1/2, 1/2, 1/2, 1/2, 1/2, 1/2, 1/2, 1/2, 1/2, 1/2, 1/2, 1/2⟩

/-- Fixture: the default configuration with an empty image pool. -/
def emptyPoolConfig : SnowflakeProps :=
{ testConfig with images := some [] }

/-!  Helper lemmas. -/

/-- JavaScript remainder by a positive modulus stays strictly between
`-b` and `b`. -/
theorem jsMod_bounds (a b : ℚ) (hb : 0 < b) : -b < jsMod a b ∧ jsMod a b < b := by
have hbne : b ≠ 0 := ne_of_gt hb
have hqb : a / b * b = a := div_mul_cancel₀ a hbne
unfold jsMod jsTrunc
split_ifs with h
· have h1 : (a / b) ≤ (⌈a / b⌉ : ℚ) := Int.le_ceil _
  have h2 : ((⌈a / b⌉ : ℚ)) < a / b + 1 := Int.ceil_lt_add_one _
  constructor
  · nlinarith
  · nlinarith
· have h1 : ((⌊a / b⌋ : ℚ)) ≤ a / b := Int.floor_le _
  have h2 : a / b < (⌊a / b⌋ : ℚ) + 1 := Int.lt_floor_add_one _
  constructor
  · nlinarith
  · nlinarith

/-- One `update` call keeps all four rotation angles strictly between
-360 and 360. -/
theorem anglesOK_update (config : SnowflakeProps) (p : SnowflakeParams)
    (inp : UpdateInput) (h : anglesOK p) : anglesOK (update config p inp).1 := by
have h360 : (0 : ℚ) < 360 := by norm_num
obtain ⟨h1, h2, h3, h4, h5, h6, h7, h8⟩ := h
unfold anglesOK update
cases hc : config.enable3DRotation <;>
  simp only [hc, if_true, if_false, Bool.false_eq_true] <;>
  refine ⟨?_, ?_, ?_, ?_, ?_, ?_, ?_, ?_⟩ <;>
  first
    | exact (jsMod_bounds _ _ h360).1
    | exact (jsMod_bounds _ _ h360).2
    | assumption

/-! Claim theorems. -/

/-- C1 counterexample: a particle with sampled rotation speed -10 and
planar rotation 0 has rotation -10 after one update, which does not lie
in [0, 360): JavaScript's `%` keeps the dividend's sign. -/
theorem update_rotation_can_be_negative :
    (update testConfig { baseFlake with rotationSpeed := -10 }
        ⟨100, 100, 1, 0, 1/2, 1/2⟩).1.rotation = -10 ∧
    ¬(0 ≤ (update testConfig { baseFlake with rotationSpeed := -10 }
        ⟨100, 100, 1, 0, 1/2, 1/2⟩).1.rotation) := by
have h : (⌈-(1/36 : ℚ)⌉ : ℤ) = 0 := by norm_num
constructor <;>
  norm_num [update, testConfig, baseFlake, jsMod, jsTrunc, lerp, h]

/-- C1 (amended): for every particle whose four rotation angles lie in
(-360, 360) and every sequence of update calls, all four angles still lie
in (-360, 360) after each call; the tighter interval [0, 360) claimed by
the spec fails for negative rotation speeds. -/
theorem update_rotation_angles_bounded (config : SnowflakeProps)
    (p : SnowflakeParams) (ins : List UpdateInput) (h : anglesOK p) :
    anglesOK (runUpdates config p ins) := by
induction ins generalizing p with
| nil => exact h
| cons i t ih =>
  have hstep : anglesOK (update config p i).1 := anglesOK_update config p i h
  simpa [runUpdates, List.foldl_cons] using ih (update config p i).1 hstep

/-- Witness for C1: the angle invariant holds concretely after one update
of the base particle. -/
theorem update_rotation_angles_bounded_witness :
    anglesOK (runUpdates testConfig baseFlake [⟨100, 100, 1, 0, 1/2, 1/2⟩]) :=
update_rotation_angles_bounded testConfig baseFlake _
  (by norm_num [anglesOK, baseFlake])

/-- C2: with accumulation enabled, `update` returns true iff after the
position update and edge wrap of that same call the particle's lower edge
has reached the accumulation threshold, and the call never changes the
particle's own accumulation flag (nor its radius). -/
theorem update_accumulation_signal (config : SnowflakeProps)
    (p : SnowflakeParams) (inp : UpdateInput)
    (hacc : config.enableAccumulation = true) :
    ((update config p inp).2 = true ↔
      (update config p inp).1.y + p.radius ≥ inp.height - inp.ground) ∧
    (update config p inp).1.isAccumulated = p.isAccumulated ∧
    (update config p inp).1.radius = p.radius := by
refine ⟨?_, rfl, rfl⟩
simp only [update, hacc, Bool.true_and, decide_eq_true_eq]

/-- Witness for C2: the accumulation signal equivalence instantiated at a
particle sitting on the floor of a 100x100 surface. -/
theorem update_accumulation_signal_witness :
    ((update { testConfig with enableAccumulation := true }
        { baseFlake with y := 99, radius := 2 } ⟨100, 100, 0, 0, 1/2, 1/2⟩).2 = true ↔
      (update { testConfig with enableAccumulation := true }
        { baseFlake with y := 99, radius := 2 } ⟨100, 100, 0, 0, 1/2, 1/2⟩).1.y +
        ({ baseFlake with y := 99, radius := 2 } : SnowflakeParams).radius ≥
        (⟨100, 100, 0, 0, 1/2, 1/2⟩ : UpdateInput).height -
        (⟨100, 100, 0, 0, 1/2, 1/2⟩ : UpdateInput).ground) ∧
    (update { testConfig with enableAccumulation := true }
        { baseFlake with y := 99, radius := 2 } ⟨100, 100, 0, 0, 1/2, 1/2⟩).1.isAccumulated =
      ({ baseFlake with y := 99, radius := 2 } : SnowflakeParams).isAccumulated ∧
    (update { testConfig with enableAccumulation := true }
        { baseFlake with y := 99, radius := 2 } ⟨100, 100, 0, 0, 1/2, 1/2⟩).1.radius =
      ({ baseFlake with y := 99, radius := 2 } : SnowflakeParams).radius :=
update_accumulation_signal { testConfig with enableAccumulation := true }
  { baseFlake with y := 99, radius := 2 } ⟨100, 100, 0, 0, 1/2, 1/2⟩ rfl

/-- C3: the edge wrap relocates `y` to `-radius` exactly when the
integrated `y` exceeds the surface height, relocates `x` to `-radius`
when the integrated `x` exceeds `width + radius` and to `width + radius`
when it falls below `-radius` (leaving `y` untouched); concretely on a
100x100 surface with radius 2, `y = 150` wraps to `-2`, `x = 103` wraps
to `-2`, and `x = -5` wraps to `102`. -/
theorem update_edge_wrap (config : SnowflakeProps) (p : SnowflakeParams)
    (inp : UpdateInput) :
    ((update config p inp).1.y =
      if p.y + lerp p.speed p.nextSpeed (inp.frames / config.changeFrequency) * inp.frames
          > inp.height
      then -p.radius
      else p.y + lerp p.speed p.nextSpeed (inp.frames / config.changeFrequency) * inp.frames) ∧
    ((update config p inp).1.x =
      if p.x + lerp p.wind p.nextWind (inp.frames / config.changeFrequency) * inp.frames
          > inp.width + p.radius
      then -p.radius
      else if p.x + lerp p.wind p.nextWind (inp.frames / config.changeFrequency) * inp.frames
          < -p.radius
        then inp.width + p.radius
        else p.x + lerp p.wind p.nextWind (inp.frames / config.changeFrequency) * inp.frames) ∧
    (update testConfig { baseFlake with y := 150, radius := 2 }
      ⟨100, 100, 1, 0, 1/2, 1/2⟩).1.y = -2 ∧
    (update testConfig { baseFlake with x := 103, radius := 2 }
      ⟨100, 100, 1, 0, 1/2, 1/2⟩).1.x = -2 ∧
    (update testConfig { baseFlake with x := -5, radius := 2 }
      ⟨100, 100, 1, 0, 1/2, 1/2⟩).1.x = 102 := by
refine ⟨rfl, rfl, ?_, ?_, ?_⟩ <;>
  norm_num [update, testConfig, baseFlake, lerp]

/-- C4: each `update` sets the current speed and wind to the linear
interpolation toward their targets with the unclamped fraction
`elapsedFrameUnits / changeFrequency`; concretely `speed=1, nextSpeed=5,
changeFrequency=10` with 5 elapsed frame units gives speed 3, and with 20
elapsed frame units overshoots the target to 9. -/
theorem update_lerp_speed_wind (config : SnowflakeProps)
    (p : SnowflakeParams) (inp : UpdateInput) :
    (update config p inp).1.speed =
      lerp p.speed p.nextSpeed (inp.frames / config.changeFrequency) ∧
    (update config p inp).1.wind =
      lerp p.wind p.nextWind (inp.frames / config.changeFrequency) ∧
    (update { testConfig with changeFrequency := 10 }
      { baseFlake with speed := 1, nextSpeed := 5 }
      ⟨100, 100, 5, 0, 1/2, 1/2⟩).1.speed = 3 ∧
    (update { testConfig with changeFrequency := 10 }
      { baseFlake with speed := 1, nextSpeed := 5 }
      ⟨100, 100, 20, 0, 1/2, 1/2⟩).1.speed = 9 ∧
    (5 : ℚ) < 9 := by
refine ⟨rfl, rfl, ?_, ?_, by norm_num⟩ <;>
  norm_num [update, testConfig, baseFlake, lerp]

/-- An accumulation event never shrinks the ground height when the rate
is nonnegative. -/
theorem accumEvent_mono (rate maxH : ℚ) (s : AccumState) (hr : 0 ≤ rate) :
    s.accumulationHeight ≤ (accumEvent rate maxH s).accumulationHeight := by
unfold accumEvent
split_ifs with h
· simp only
  linarith
· exact le_refl _

/-- An accumulation event keeps the ground height strictly below
`maxH + rate` whenever it was. -/
theorem accumEvent_lt_cap (rate maxH : ℚ) (s : AccumState)
    (hs : s.accumulationHeight < maxH + rate) :
    (accumEvent rate maxH s).accumulationHeight < maxH + rate := by
unfold accumEvent
split_ifs with h
· simp only
  linarith
· exact hs

/-- C5 counterexample: with rate 7 and cap 20, three accumulation events
from zero drive the ground height to 21, which exceeds the cap — the code
gates growth on being below the cap but does not clamp the sum. -/
theorem accumulation_exceeds_cap_counterexample :
    (((accumEvent 7 20)^[3] ⟨0⟩).accumulationHeight = 21) ∧
    (20 : ℚ) < ((accumEvent 7 20)^[3] ⟨0⟩).accumulationHeight := by
have h : ((accumEvent 7 20)^[3] ⟨0⟩).accumulationHeight = 21 := by
  show ((accumEvent 7 20) ((accumEvent 7 20) ((accumEvent 7 20) ⟨0⟩))).accumulationHeight = 21
  norm_num [accumEvent]
exact ⟨h, by rw [h]; norm_num⟩

/-- C5 (amended): the ground height is monotonically non-decreasing
across accumulation events for nonnegative rates and is reset to zero by
reconfiguration; each event grows it by the rate only while it is
strictly below the cap, so it stays below `cap + rate` (it can overshoot
the cap by less than one rate increment, not arbitrarily); with cap 20
and rate 5 four events saturate it at exactly 20, never exceeding 20, and
20 is a fixed point. -/
theorem accumulation_growth_gated (rate maxH h : ℚ) (n : ℕ) (s : AccumState) :
    (0 ≤ rate →
      ((accumEvent rate maxH)^[n] ⟨h⟩).accumulationHeight ≤
        ((accumEvent rate maxH)^[n + 1] ⟨h⟩).accumulationHeight) ∧
    (h < maxH + rate →
      ((accumEvent rate maxH)^[n] ⟨h⟩).accumulationHeight < maxH + rate) ∧
    (updateConfigAccum s).accumulationHeight = 0 ∧
    ((accumEvent 5 20)^[4] ⟨0⟩).accumulationHeight = 20 ∧
    accumEvent 5 20 ⟨20⟩ = ⟨20⟩ ∧
    (∀ m : ℕ, m ≤ 4 → ((accumEvent 5 20)^[m] ⟨0⟩).accumulationHeight ≤ 20) := by
refine ⟨?_, ?_, rfl, ?_, ?_, ?_⟩
· intro hr
  rw [Function.iterate_succ_apply']
  exact accumEvent_mono rate maxH _ hr
· intro hh
  induction n with
  | zero => simpa using hh
  | succ k ih =>
    rw [Function.iterate_succ_apply']
    exact accumEvent_lt_cap rate maxH _ ih
· show ((accumEvent 5 20) ((accumEvent 5 20) ((accumEvent 5 20)
    ((accumEvent 5 20) ⟨0⟩)))).accumulationHeight = 20
  norm_num [accumEvent]
· show (if (20 : ℚ) < 20 then (⟨20 + 5⟩ : AccumState) else ⟨20⟩) = ⟨20⟩
  norm_num
· intro m hm
  interval_cases m
  · norm_num
  · show ((accumEvent 5 20) ⟨0⟩).accumulationHeight ≤ 20
    norm_num [accumEvent]
  · show ((accumEvent 5 20) ((accumEvent 5 20) ⟨0⟩)).accumulationHeight ≤ 20
    norm_num [accumEvent]
  · show ((accumEvent 5 20) ((accumEvent 5 20) ((accumEvent 5 20)
      ⟨0⟩))).accumulationHeight ≤ 20
    norm_num [accumEvent]
  · show ((accumEvent 5 20) ((accumEvent 5 20) ((accumEvent 5 20)
      ((accumEvent 5 20) ⟨0⟩)))).accumulationHeight ≤ 20
    norm_num [accumEvent]

/-- Witness for C5: monotonicity and the cap bound instantiated at rate 1,
cap 10, two events from zero. -/
theorem accumulation_growth_gated_witness :
    (((accumEvent 1 10)^[2] ⟨0⟩).accumulationHeight ≤
      ((accumEvent 1 10)^[2 + 1] ⟨0⟩).accumulationHeight) ∧
    ((accumEvent 1 10)^[2] (⟨0⟩ : AccumState)).accumulationHeight < 10 + 1 :=
⟨(accumulation_growth_gated 1 10 0 2 ⟨0⟩).1 (by norm_num),
 (accumulation_growth_gated 1 10 0 2 ⟨0⟩).2.1 (by norm_num)⟩

/-- A sample drawn by `random` is at least the lower bound of the range. -/
theorem random_ge (mn mx u : ℚ) (hr : mn ≤ mx) (hu : 0 ≤ u) :
    mn ≤ random mn mx u := by
unfold random
nlinarith

/-- A sample drawn by `random` is at most the upper bound of the range. -/
theorem random_le (mn mx u : ℚ) (hr : mn ≤ mx) (_hu : 0 ≤ u) (hu1 : u < 1) :
    random mn mx u ≤ mx := by
unfold random
nlinarith

/-- A sample drawn by `random` from a nondegenerate range stays strictly
below the upper bound. -/
theorem random_lt (mn mx u : ℚ) (hr : mn < mx) (hu1 : u < 1) :
    random mn mx u < mx := by
unfold random
nlinarith

/-- C6: given ranges with `min ≤ max`, a positive surface, and unit
samples, a freshly constructed particle starts at `x ∈ [0, width)`,
`y ∈ [-height, 0)`, has radius, current and target speed and wind,
rotation speed, and opacity inside their configured ranges, all three 3D
axis angles in `[0, 360)`, a zero frame accumulator, and a cleared
accumulation flag. -/
theorem constructed_snowflake_in_ranges (config : SnowflakeProps)
    (w h : ℚ) (s : CtorSamples)
    (hrad : config.radius.1 ≤ config.radius.2)
    (hspd : config.speed.1 ≤ config.speed.2)
    (hwnd : config.wind.1 ≤ config.wind.2)
    (hrot : config.rotationSpeed.1 ≤ config.rotationSpeed.2)
    (hopa : config.opacity.1 ≤ config.opacity.2)
    (hw : 0 < w) (hh : 0 < h) (hs : s.valid) :
    (0 ≤ (mkSnowflake config w h s).x ∧ (mkSnowflake config w h s).x < w) ∧
    (-h ≤ (mkSnowflake config w h s).y ∧ (mkSnowflake config w h s).y < 0) ∧
    (config.radius.1 ≤ (mkSnowflake config w h s).radius ∧
      (mkSnowflake config w h s).radius ≤ config.radius.2) ∧
    (config.speed.1 ≤ (mkSnowflake config w h s).speed ∧
      (mkSnowflake config w h s).speed ≤ config.speed.2) ∧
    (config.wind.1 ≤ (mkSnowflake config w h s).wind ∧
      (mkSnowflake config w h s).wind ≤ config.wind.2) ∧
    (config.speed.1 ≤ (mkSnowflake config w h s).nextSpeed ∧
      (mkSnowflake config w h s).nextSpeed ≤ config.speed.2) ∧
    (config.wind.1 ≤ (mkSnowflake config w h s).nextWind ∧
      (mkSnowflake config w h s).nextWind ≤ config.wind.2) ∧
    (config.rotationSpeed.1 ≤ (mkSnowflake config w h s).rotationSpeed ∧
      (mkSnowflake config w h s).rotationSpeed ≤ config.rotationSpeed.2) ∧
    (config.opacity.1 ≤ (mkSnowflake config w h s).opacity ∧
      (mkSnowflake config w h s).opacity ≤ config.opacity.2) ∧
    (0 ≤ (mkSnowflake config w h s).rotationX ∧
      (mkSnowflake config w h s).rotationX < 360) ∧
    (0 ≤ (mkSnowflake config w h s).rotationY ∧
      (mkSnowflake config w h s).rotationY < 360) ∧
    (0 ≤ (mkSnowflake config w h s).rotationZ ∧
      (mkSnowflake config w h s).rotationZ < 360) ∧
    (mkSnowflake config w h s).framesSinceLastUpdate = 0 ∧
    (mkSnowflake config w h s).isAccumulated = false := by
obtain ⟨hx, hy, hradS, hspdS, hwndS, hnspdS, hnwndS, hrotS, hrspdS, hopaS,
  hrxS, hryS, hrzS, himgS⟩ := hs
simp only [mkSnowflake]
refine ⟨⟨?_, ?_⟩, ⟨?_, ?_⟩, ⟨?_, ?_⟩, ⟨?_, ?_⟩, ⟨?_, ?_⟩, ⟨?_, ?_⟩,
  ⟨?_, ?_⟩, ⟨?_, ?_⟩, ⟨?_, ?_⟩, ⟨?_, ?_⟩, ⟨?_, ?_⟩, ⟨?_, ?_⟩, trivial, trivial⟩
· exact random_ge 0 w _ (le_of_lt hw) hx.1
· exact random_lt 0 w _ hw hx.2
· exact random_ge (-h) 0 _ (by linarith) hy.1
· exact random_lt (-h) 0 _ (by linarith) hy.2
· exact random_ge _ _ _ hrad hradS.1
· exact random_le _ _ _ hrad hradS.1 hradS.2
· exact random_ge _ _ _ hspd hspdS.1
· exact random_le _ _ _ hspd hspdS.1 hspdS.2
· exact random_ge _ _ _ hwnd hwndS.1
· exact random_le _ _ _ hwnd hwndS.1 hwndS.2
· exact random_ge _ _ _ hspd hnspdS.1
· exact random_le _ _ _ hspd hnspdS.1 hnspdS.2
· exact random_ge _ _ _ hwnd hnwndS.1
· exact random_le _ _ _ hwnd hnwndS.1 hnwndS.2
· exact random_ge _ _ _ hrot hrspdS.1
· exact random_le _ _ _ hrot hrspdS.1 hrspdS.2
· exact random_ge _ _ _ hopa hopaS.1
· exact random_le _ _ _ hopa hopaS.1 hopaS.2
· exact random_ge 0 360 _ (by norm_num) hrxS.1
· exact random_lt 0 360 _ (by norm_num) hrxS.2
· exact random_ge 0 360 _ (by norm_num) hryS.1
· exact random_lt 0 360 _ (by norm_num) hryS.2
· exact random_ge 0 360 _ (by norm_num) hrzS.1
· exact random_lt 0 360 _ (by norm_num) hrzS.2

/-- Witness for C6: the starting-position bounds instantiated for the
default configuration on a 100x50 surface with all samples one half. -/
theorem constructed_snowflake_in_ranges_witness :
    0 ≤ (mkSnowflake testConfig 100 50 halfSamples).x ∧
    (mkSnowflake testConfig 100 50 halfSamples).x < 100 :=
(constructed_snowflake_in_ranges testConfig 100 50 halfSamples
  (by norm_num [testConfig]) (by norm_num [testConfig])
  (by norm_num [testConfig]) (by norm_num [testConfig])
  (by norm_num [testConfig]) (by norm_num) (by norm_num)
  (by norm_num [CtorSamples.valid, unitSample, halfSamples])).1

/-- C7: for a nonnegative radius, the hit test succeeds exactly when the
Euclidean distance from the query point to the particle's center is at
most the radius; concretely a particle centered at (10, 10) with radius 5
contains (12, 13) and does not contain (20, 20). -/
theorem containsPoint_iff_dist_le (p : SnowflakeParams) (px py : ℚ)
    (hr : 0 ≤ p.radius) :
    (containsPoint p px py = true ↔
      Real.sqrt (((px : ℝ) - (p.x : ℝ)) ^ 2 + ((py : ℝ) - (p.y : ℝ)) ^ 2) ≤
        (p.radius : ℝ)) ∧
    containsPoint hitFlake 12 13 = true ∧
    containsPoint hitFlake 20 20 = false := by
refine ⟨?_, ?_, ?_⟩
· rw [containsPoint, decide_eq_true_eq,
    Real.sqrt_le_left (by exact_mod_cast hr)]
  constructor <;> intro hq <;> exact_mod_cast hq
· norm_num [containsPoint, hitFlake, baseFlake]
· norm_num [containsPoint, hitFlake, baseFlake]

/-- Witness for C7: the hit-test equivalence instantiated at the particle
centered at (10, 10) with radius 5 and the query point (12, 13). -/
theorem containsPoint_iff_dist_le_witness :
    containsPoint hitFlake 12 13 = true ↔
      Real.sqrt ((((12 : ℚ) : ℝ) - (hitFlake.x : ℝ)) ^ 2 +
        (((13 : ℚ) : ℝ) - (hitFlake.y : ℝ)) ^ 2) ≤ (hitFlake.radius : ℝ) :=
(containsPoint_iff_dist_le hitFlake 12 13
  (by norm_num [hitFlake, baseFlake])).1

/-- If no particle in the collection is hit, the reverse scan removes
nothing. -/
theorem clickRemove_eq_none (px py : ℚ) (l : List SnowflakeParams)
    (h : ∀ f ∈ l, containsPoint f px py = false) :
    clickRemove px py l = none := by
induction l with
| nil => rfl
| cons a t ih =>
  have ht : clickRemove px py t = none :=
    ih fun f hf => h f (List.mem_cons_of_mem a hf)
  have ha : containsPoint a px py = false := h a (List.mem_cons_self a t)
  simp [clickRemove, ht, ha]

/-- The reverse scan removes exactly the latest hit particle: if `f` is
hit and nothing after it is, the scan splices out `f`. -/
theorem clickRemove_splice (px py : ℚ) (l₁ : List SnowflakeParams)
    (f : SnowflakeParams) (l₂ : List SnowflakeParams)
    (hf : containsPoint f px py = true)
    (hl₂ : ∀ g ∈ l₂, containsPoint g px py = false) :
    clickRemove px py (l₁ ++ f :: l₂) = some (l₁ ++ l₂) := by
induction l₁ with
| nil => simp [clickRemove, clickRemove_eq_none px py l₂ hl₂, hf]
| cons a t ih => simp [clickRemove, ih]

/-- A successful reverse scan removes exactly one particle. -/
theorem clickRemove_length (px py : ℚ) (l l' : List SnowflakeParams)
    (h : clickRemove px py l = some l') : l'.length + 1 = l.length := by
induction l generalizing l' with
| nil => simp [clickRemove] at h
| cons a t ih =>
  cases hm : clickRemove px py t with
  | some t1 =>
    have heq : clickRemove px py (a :: t) = some (a :: t1) := by
      simp [clickRemove, hm]
    rw [heq] at h
    simp only [Option.some.injEq] at h
    subst h
    simp [← ih t1 hm]
  | none =>
    cases hc : containsPoint a px py with
    | true =>
      have heq : clickRemove px py (a :: t) = some t := by
        simp [clickRemove, hm, hc]
      rw [heq] at h
      simp only [Option.some.injEq] at h
      subst h
      simp
    | false =>
      have heq : clickRemove px py (a :: t) = none := by
        simp [clickRemove, hm, hc]
      rw [heq] at h
      exact absurd h (by simp)

/-- C8: the click handler removes exactly the hit particle at the highest
index (topmost-drawn), preserving the order of the others; it removes
nothing when no particle is hit; and the collection never shrinks by more
than one per click. -/
theorem handleClick_removes_topmost_hit (flakes : List SnowflakeParams)
    (cX cY rL rT cw ch ow oh : ℚ) :
    ((∀ f ∈ flakes,
        containsPoint f ((cX - rL) * (cw / (if ow = 0 then 1 else ow)))
          ((cY - rT) * (ch / (if oh = 0 then 1 else oh))) = false) →
      handleClick flakes cX cY rL rT cw ch ow oh = flakes) ∧
    (∀ (l₁ : List SnowflakeParams) (f : SnowflakeParams)
        (l₂ : List SnowflakeParams), flakes = l₁ ++ f :: l₂ →
      containsPoint f ((cX - rL) * (cw / (if ow = 0 then 1 else ow)))
          ((cY - rT) * (ch / (if oh = 0 then 1 else oh))) = true →
      (∀ g ∈ l₂,
        containsPoint g ((cX - rL) * (cw / (if ow = 0 then 1 else ow)))
          ((cY - rT) * (ch / (if oh = 0 then 1 else oh))) = false) →
      handleClick flakes cX cY rL rT cw ch ow oh = l₁ ++ l₂) ∧
    flakes.length ≤ (handleClick flakes cX cY rL rT cw ch ow oh).length + 1 ∧
    (handleClick flakes cX cY rL rT cw ch ow oh).length ≤ flakes.length := by
refine ⟨?_, ?_, ?_, ?_⟩
· intro h
  simp only [handleClick]
  rw [clickRemove_eq_none _ _ flakes h]
  rfl
· intro l₁ f l₂ heq hf hl₂
  subst heq
  simp only [handleClick]
  rw [clickRemove_splice _ _ l₁ f l₂ hf hl₂]
  rfl
· simp only [handleClick]
  cases hm : clickRemove ((cX - rL) * (cw / (if ow = 0 then 1 else ow)))
      ((cY - rT) * (ch / (if oh = 0 then 1 else oh))) flakes with
  | some l' =>
    have hl := clickRemove_length _ _ flakes l' hm
    simp only [Option.getD_some]
    omega
  | none => simp
· simp only [handleClick]
  cases hm : clickRemove ((cX - rL) * (cw / (if ow = 0 then 1 else ow)))
      ((cY - rT) * (ch / (if oh = 0 then 1 else oh))) flakes with
  | some l' =>
    have hl := clickRemove_length _ _ flakes l' hm
    simp only [Option.getD_some]
    omega
  | none => simp

/-- Witness for C8: clicking at (12, 13) on a one-particle collection
holding the particle centered at (10, 10) with radius 5 removes it. -/
theorem handleClick_removes_topmost_hit_witness :
    handleClick [hitFlake] 12 13 0 0 100 100 100 100 = [] :=
(handleClick_removes_topmost_hit [hitFlake] 12 13 0 0 100 100 100 100).2.1
  [] hitFlake [] rfl
  (by norm_num [containsPoint, hitFlake, baseFlake])
  (by simp)

/-- C9: over the controller's Playing/Paused state machine, `pause` is
idempotent — a second `pause` changes neither the controller nor the
scheduler (the pending tick is cancelled exactly once) — and a `play`
issued while already playing is a no-op that schedules no duplicate
pending tick. -/
theorem pause_idempotent_play_noop (c : CanvasCtrl) (s : Sched)
    (now now' : ℤ) :
    pause (pause c s).1 (pause c s).2 = pause c s ∧
    play now' (play now c s).1 (play now c s).2 = play now c s := by
constructor
· cases hf : c.animationFrame <;> simp [pause, hf]
· by_cases hp : (!c.isPaused && c.animationFrame.isSome) = true
  · simp [play, hp]
  · simp [play, hp, loopStep, requestFrame]

/-- C10: with an empty image pool configured, `randomElement` indexes an
empty sequence and yields nothing, so the constructed particle has no
image and `draw` selects one of the two circle modes; the image branch is
only ever taken when an image is actually assigned. -/
theorem empty_image_pool_falls_back_to_circle (config : SnowflakeProps)
    (w h : ℚ) (s : CtorSamples) (himg : config.images = some []) :
    (mkSnowflake config w h s).image = none ∧
    drawMode config (mkSnowflake config w h s) ≠ DrawMode.imageMode ∧
    (drawMode config (mkSnowflake config w h s) = DrawMode.circle3D ∨
      drawMode config (mkSnowflake config w h s) = DrawMode.circle) ∧
    (∀ (config2 : SnowflakeProps) (p : SnowflakeParams),
      drawMode config2 p = DrawMode.imageMode → p.image.isSome = true) := by
have h1 : (mkSnowflake config w h s).image = none := by
  simp [mkSnowflake, himg, randomElement]
refine ⟨h1, ?_, ?_, ?_⟩
· cases hc : config.enable3DRotation <;> simp [drawMode, h1, hc]
· cases hc : config.enable3DRotation <;> simp [drawMode, h1, hc]
· intro config2 p hdm
  by_contra hns
  simp only [Bool.not_eq_true] at hns
  simp [drawMode, hns] at hdm
  cases hc : config2.enable3DRotation <;> rw [hc] at hdm <;> simp at hdm

/-- Witness for C10: the default configuration with an empty image pool
yields a particle with no image. -/
theorem empty_image_pool_falls_back_to_circle_witness :
    (mkSnowflake emptyPoolConfig 100 100 halfSamples).image = none :=
(empty_image_pool_falls_back_to_circle emptyPoolConfig 100 100 halfSamples
  rfl).1

end Snowfall
